import Mathlib

/-
  Verification of the research-explorer front end (src/static/script.js).

  The file shallowly embeds the pure content of the script: the formatting
  helpers, the HTML-string renderers for the two result lists, the main
  search request/response handling, and the autocomplete controller
  (debounce timer, suggestion fetches, keyboard navigation, dismissal).
  DOM containers are modelled by the strings assigned to their `innerHTML`;
  the single-threaded event loop is modelled by an explicit event list
  (input events and timer ticks carry a millisecond timestamp, fetch
  completions arrive as events in an arbitrary order relative to each
  other, exactly as promise resolutions do).
-/

namespace ResearchExplorer

/-! ## JavaScript string primitives used by the script -/

/-- JS `String.prototype.trim` whitespace class (WhiteSpace and
LineTerminator code points that occur in practice for query strings). -/
def isJsWhitespace (c : Char) : Bool :=
  [' ', '\t', '\n', '\r', '\x0b', '\x0c', Char.ofNat 160, Char.ofNat 0xFEFF].contains c

/-- JS `s.trim()`: strip leading and trailing whitespace. -/
def jsTrim (s : String) : String :=
  ⟨((s.data.dropWhile isJsWhitespace).reverse.dropWhile isJsWhitespace).reverse⟩

/-- JS truthiness test `!x` for an optional string field: true exactly when
the field is absent (`undefined`/`null`) or is the empty string. -/
def strFalsy : Option String → Bool
  | none => true
  | some s => s == ""

/-- JS `x || d` for an optional string field: the fallback `d` when the
field is absent or empty, the field's value otherwise. -/
def strOr (o : Option String) (d : String) : String :=
  match o with
  | none => d
  | some s => if s == "" then d else s

/-- JS `array.join("")`: concatenation of a list of strings. -/
def joinAll (l : List String) : String := ⟨(l.map String.data).flatten⟩

/-! ## Formatter (`formatNumber`, `escapeHtml`, script.js lines 489-504) -/

/-- ECMAScript `Number.prototype.toFixed(1)` applied to the exact rational
`num / den` (with `den > 0`): the integer multiple of 1/10 closest to the
quotient, ties resolved toward the larger value, printed with one digit
after the decimal point.  In the source the quotient `num / den` is first
rounded to a binary double; for count inputs that double agrees with the
exact quotient except at representation-dependent ties, which this model
resolves at exact precision. -/
def toFixed1 (num den : Nat) : String :=
  let n := (num * 20 + den) / (2 * den)
  toString (n / 10) ++ "." ++ toString (n % 10)

/-- `formatNumber` (script.js lines 490-498).  Inputs are the star/fork
counts, integers `≥ 0` (call sites pass `repo.stars || 0`). -/
def formatNumber (num : Nat) : String :=
  if num ≥ 1000000 then toFixed1 num 1000000 ++ "M"
  else if num ≥ 1000 then toFixed1 num 1000 ++ "K"
  else toString num

/-- The spec's description of `formatCount`, written from its words:
`n` as a string if `n < 1000`; `"{n/1000:.1f}K"` if `1000 ≤ n < 1_000_000`;
`"{n/1_000_000:.1f}M"` otherwise (one decimal place). -/
def formatCountSpec (n : Nat) : String :=
  if n < 1000 then toString n
  else if n < 1000000 then toFixed1 n 1000 ++ "K"
  else toFixed1 n 1000000 ++ "M"

/-- One character of `escapeHtml`'s output.  The source (script.js lines
500-504) sets `div.textContent = text` and reads back `div.innerHTML`; per
the HTML standard's text-node serialization this replaces `&` with
`&amp;`, U+00A0 with `&nbsp;`, `<` with `&lt;`, `>` with `&gt;`, and
leaves every other character unchanged. -/
def escChar (c : Char) : List Char :=
  if c = '&' then "&amp;".data
  else if c = Char.ofNat 160 then "&nbsp;".data
  else if c = '<' then "&lt;".data
  else if c = '>' then "&gt;".data
  else [c]

/-- `escapeHtml` (script.js lines 500-504): escape a string for insertion
as HTML text content. -/
def escapeHtml (s : String) : String := ⟨s.data.flatMap escChar⟩

/-! ## Renderer: videos and repos (script.js lines 238-351) -/

/-- A video result; all fields opaque display strings (script.js uses each
only through `escapeHtml`). -/
structure Video where
  url : String
  thumbnail : String
  title : String
  channel : String
  views : String
  published : String
deriving DecidableEq, Repr

/-- The HTML card for one video (the template literal in `renderVideos`,
script.js lines 273-287). -/
def videoCard (v : Video) : String :=
  "\n      <a href=\"" ++ escapeHtml v.url
  ++ "\" target=\"_blank\" rel=\"noopener noreferrer\" class=\"video-card\">\n        <div class=\"video-thumbnail\">\n          <img src=\""
  ++ escapeHtml v.thumbnail ++ "\" alt=\"" ++ escapeHtml v.title
  ++ "\" loading=\"lazy\" />\n        </div>\n        <div class=\"video-details\">\n          <h3>"
  ++ escapeHtml v.title ++ "</h3>\n          <p>" ++ escapeHtml v.channel
  ++ "</p>\n          <p>" ++ escapeHtml v.views ++ " • " ++ escapeHtml v.published
  ++ "</p>\n        </div>\n      </a>\n    "

/-- `renderVideos` (script.js lines 266-291): the string assigned to
`videosContainer.innerHTML`.  `none` models a missing `videos` value
(the `!videos` test). -/
def renderVideos (videos : Option (List Video)) : String :=
  match videos with
  | none => "<div class=\"empty-state\">No video explanations found</div>"
  | some vs =>
    if vs.isEmpty then "<div class=\"empty-state\">No video explanations found</div>"
    else joinAll (vs.map videoCard)

/-- A repo result.  Optional fields model properties that may be absent
from the response JSON; `stars`/`forks` are integers `≥ 0` (§3 of the
spec). -/
structure Repo where
  url : Option String
  name : Option String
  stars : Option Nat
  forks : Option Nat
  author : Option String
  language : Option String
  description : Option String
deriving DecidableEq, Repr

/-- The validation test in `renderRepos` (script.js line 308):
`!repo.url || !repo.name`. -/
def repoInvalid (r : Repo) : Bool := strFalsy r.url || strFalsy r.name

/-- One entry of the `repos.map(...)` in `renderRepos` (script.js lines
304-335): the empty string for an entry failing validation, the HTML card
template otherwise. -/
def repoCard (r : Repo) : String :=
  if repoInvalid r then ""
  else
    "\n          <a href=\"" ++ escapeHtml (r.url.getD "")
    ++ "\" target=\"_blank\" rel=\"noopener noreferrer\" class=\"repo-card\">\n            <div class=\"repo-header\">\n              <h3>"
    ++ escapeHtml (r.name.getD "") ++ "</h3>\n              <div class=\"repo-stats\">\n                <div class=\"repo-stat\">\n                  <span>★</span>\n                  <span>"
    ++ formatNumber (r.stars.getD 0) ++ "</span>\n                </div>\n                <div class=\"repo-stat\">\n                  <span>⑂</span>\n                  <span>"
    ++ formatNumber (r.forks.getD 0) ++ "</span>\n                </div>\n              </div>\n            </div>\n            <div class=\"repo-details\">\n              <p>"
    ++ escapeHtml (strOr r.author "Unknown") ++ " • " ++ escapeHtml (strOr r.language "Various")
    ++ "</p>\n              <p>" ++ escapeHtml (strOr r.description "No description available")
    ++ "</p>\n            </div>\n          </a>\n        "

/-- `renderRepos` (script.js lines 294-351): the string assigned to
`reposContainer.innerHTML`.  The `try`/`catch` around the mapping cannot
throw in this model (every operation is total), so the
"Error displaying code implementations" branch is unreachable and omitted. -/
def renderRepos (repos : Option (List Repo)) : String :=
  match repos with
  | none => "<div class=\"empty-state\">No code implementations found</div>"
  | some rs =>
    if rs.isEmpty then "<div class=\"empty-state\">No code implementations found</div>"
    else
      let html := joinAll ((rs.map repoCard).filter (fun h => h ≠ ""))
      if html = "" then "<div class=\"empty-state\">No valid code implementations found</div>"
      else html

/-! ## Search controller (`performSearch`, script.js lines 207-263) -/

/-- The `loadingHtml` template in `setLoading` (script.js lines 240-246). -/
def loadingHtml : String :=
  "\n    <div class=\"loading-dots\">\n      <span class=\"pulse\"></span>\n      <span class=\"pulse\"></span>\n      <span class=\"pulse\"></span>\n    </div>\n  "

/-- The error-banner template in `renderError` (script.js lines 256-260). -/
def errorHtml (message : String) : String :=
  "\n    <div class=\"error-banner\">\n      " ++ escapeHtml message ++ "\n    </div>\n  "

/-- The two result containers, modelled by their `innerHTML` strings. -/
structure Containers where
  videosContainer : String
  reposContainer : String
deriving DecidableEq, Repr

/-- `setLoading` (script.js lines 239-252): writes the loading indicator
into both containers when `isLoading` is true and writes nothing at all
when it is false. -/
def setLoading (isLoading : Bool) (c : Containers) : Containers :=
  if isLoading then { c with videosContainer := loadingHtml, reposContainer := loadingHtml }
  else c

/-- `renderError` (script.js lines 255-263): the same banner into both
containers. -/
def renderErrorC (c : Containers) (message : String) : Containers :=
  { c with videosContainer := errorHtml message, reposContainer := errorHtml message }

/-- How the single `fetch` of `performSearch` completes: the promise
rejects (network error, carrying the caught error's `message`), the
response is non-2xx (`!resp.ok`), or it succeeds with the parsed `videos`
and `repos` values (either may be missing from the JSON). -/
inductive SearchOutcome where
  | netError (message : String)
  | notOk
  | ok (videos : Option (List Video)) (repos : Option (List Repo))
deriving DecidableEq, Repr

/-- `performSearch` (script.js lines 208-236) as a function of the fetch
outcome: `setLoading(true)`; on `!resp.ok` throw
`Error("Search request failed. Please try again.")`, caught below; on
success render the two lists (missing keys default to `[]`); on any caught
error render `err.message || "Something went wrong. Please try again."`
into both regions; `finally setLoading(false)` (a no-op write).  The
`scrollIntoView` call is cosmetic and not modelled. -/
def performSearch (c0 : Containers) (outcome : SearchOutcome) : Containers :=
  let c1 := setLoading true c0
  let c2 :=
    match outcome with
    | .notOk => renderErrorC c1 "Search request failed. Please try again."
    | .netError m =>
        renderErrorC c1 (if m == "" then "Something went wrong. Please try again." else m)
    | .ok vs rs =>
        { c1 with videosContainer := renderVideos (some (vs.getD [])),
                  reposContainer := renderRepos (some (rs.getD [])) }
  setLoading false c2

/-! ## Autocomplete controller (script.js lines 353-487)

The module-level mutable state (`autocompleteSuggestions`,
`selectedSuggestionIndex`, `autocompleteDebounceTimer`, the dropdown's
visibility class and row contents) is gathered into one record.  Timer and
fetch bookkeeping model the JS runtime: `timer` is the single armed
`setTimeout` handle (arm time and captured query), `pending` the issued
but unresolved suggestion fetches (tagged with issue order), `requestLog`
every suggestion request ever issued. -/

/-- A suggestion row (`{title, year?, category?}`, spec §3). -/
structure Suggestion where
  title : String
  year : Option Nat
  category : Option String
deriving DecidableEq, Repr

/-- The autocomplete state.  `rendered` is the list of suggestions whose
rows currently populate `autocompleteDropdown.innerHTML` (the dropdown's
displayed content); `visible` is the presence of its `visible` class. -/
structure AcState where
  suggestions : List Suggestion
  selectedIndex : Int
  visible : Bool
  rendered : List Suggestion
  timer : Option (Nat × String)
  pending : List (Nat × String)
  nextReq : Nat
  requestLog : List String
deriving DecidableEq, Repr

/-- The state at page load (script.js lines 17-19). -/
def initAc : AcState :=
  { suggestions := [], selectedIndex := -1, visible := false, rendered := [],
    timer := none, pending := [], nextReq := 0, requestLog := [] }

/-- `hideAutocomplete` (script.js lines 482-487): remove the `visible`
class, clear the dropdown's content, the suggestion list and the
selection.  It does not touch the debounce timer. -/
def hideAutocomplete (s : AcState) : AcState :=
  { s with visible := false, rendered := [], suggestions := [], selectedIndex := -1 }

/-- `renderAutocompleteSuggestions` (script.js lines 390-430): dismiss on
an empty suggestion list, otherwise reset the selection, fill the dropdown
from the current suggestion list and show it. -/
def renderSuggestions (s : AcState) : AcState :=
  if s.suggestions.isEmpty then hideAutocomplete s
  else { s with selectedIndex := -1, rendered := s.suggestions, visible := true }

/-- How one suggestion fetch completes: promise rejection (network error),
non-2xx response (`!resp.ok`), or parsed JSON whose `suggestions` key may
be absent. -/
inductive FetchResult where
  | netError
  | notOk
  | ok (suggestions : Option (List Suggestion))
deriving DecidableEq, Repr

/-- The continuation of `loadAutocompleteSuggestions` (script.js lines
375-387) once its fetch has completed: on `!resp.ok` a bare `return`; on
success assign `data.suggestions || []` and re-render; on a caught error
log and dismiss. -/
def applyFetch (s : AcState) (r : FetchResult) : AcState :=
  match r with
  | .netError => hideAutocomplete s
  | .notOk => s
  | .ok d => renderSuggestions { s with suggestions := d.getD [] }

/-- `handleSearchInput` (script.js lines 354-372) for an input event at
time `t` with raw field value `raw`: trim, clear any armed timer, dismiss
when the trimmed query is shorter than 2, otherwise arm a fresh 300 ms
timer capturing the trimmed query. -/
def handleInput (s : AcState) (t : Nat) (raw : String) : AcState :=
  let q := jsTrim raw
  let s1 := { s with timer := none }
  if q.length < 2 then hideAutocomplete s1
  else { s1 with timer := some (t, q) }

/-- The armed timer's callback (script.js lines 369-371): call
`loadAutocompleteSuggestions` with the captured query, which issues the
fetch (recorded in `pending` and `requestLog`) and suspends. -/
def fireTimer (s : AcState) : AcState :=
  match s.timer with
  | none => s
  | some (_, q) =>
      { s with timer := none, pending := s.pending ++ [(s.nextReq, q)],
               nextReq := s.nextReq + 1, requestLog := s.requestLog ++ [q] }

/-- The JS runtime delivering due timers: when the clock reaches `t`, a
timer armed at `ta` fires iff `ta + 300 ≤ t` (at most one timer is ever
armed, since `handleSearchInput` clears before arming). -/
def advanceTo (s : AcState) (t : Nat) : AcState :=
  match s.timer with
  | some (ta, _) => if ta + 300 ≤ t then fireTimer s else s
  | none => s

/-- The keys handled by `handleAutocompleteKeyboard`. -/
inductive Key where
  | arrowDown
  | arrowUp
  | enter
  | escape
deriving DecidableEq, Repr

/-- `handleAutocompleteKeyboard` (script.js lines 433-468): a no-op unless
the dropdown is visible and holds rows; ArrowDown/ArrowUp move the
selection clamped by `Math.min`/`Math.max`; Enter with a valid selection
commits (copies the title into the input — outside this record — and
dismisses; the subsequent `performSearch` is the search controller's);
Escape dismisses. -/
def handleKey (s : AcState) (k : Key) : AcState :=
  if s.visible then
    if s.rendered.isEmpty then s
    else
      match k with
      | .arrowDown =>
          { s with selectedIndex := min (s.selectedIndex + 1) ((s.rendered.length : Int) - 1) }
      | .arrowUp =>
          { s with selectedIndex := max (s.selectedIndex - 1) (-1) }
      | .enter =>
          if 0 ≤ s.selectedIndex ∧ s.selectedIndex < (s.rendered.length : Int)
          then hideAutocomplete s else s
      | .escape => hideAutocomplete s
  else s

/-- One event of the single-threaded event loop: an input event at time
`t`, bare passage of time to `t` (delivering a due timer), the resolution
of the pending suggestion fetch with tag `id` (fetch completions are
delivered in arbitrary order — the script does nothing to correlate a
response with the request that produced it), or a keydown. -/
inductive AcEvent where
  | input (t : Nat) (raw : String)
  | tick (t : Nat)
  | response (id : Nat) (r : FetchResult)
  | key (k : Key)
deriving DecidableEq, Repr

/-- Dispatch one event.  A `response` for a tag that is not pending is
ignored (no such promise exists to resolve). -/
def acStep (s : AcState) : AcEvent → AcState
  | .input t raw => handleInput (advanceTo s t) t raw
  | .tick t => advanceTo s t
  | .response id r =>
      if (s.pending.map Prod.fst).contains id then
        applyFetch { s with pending := s.pending.filter (fun p => p.1 ≠ id) } r
      else s
  | .key k => handleKey s k

/-- Run a list of events. -/
def acRun (s : AcState) (evs : List AcEvent) : AcState := evs.foldl acStep s

/-- Timestamps of an input-event list are nondecreasing and consecutive
events are less than the 300 ms debounce delay apart. -/
def timesOk : List (Nat × String) → Bool
  | [] => true
  | [_] => true
  | a :: b :: rest => (a.1 ≤ b.1 && b.1 < a.1 + 300) && timesOk (b :: rest)

/-! ## Concrete instances used by the scenarios of spec §8 -/

/-- The valid repo `{url:"a", name:"A"}` of the spec's filtering example. -/
def repoA : Repo :=
  { url := some "a", name := some "A", stars := none, forks := none,
    author := none, language := none, description := none }

/-- The repo `{name:"B"}` (missing only `url`) of the spec's filtering
example. -/
def repoB : Repo :=
  { url := none, name := some "B", stars := none, forks := none,
    author := none, language := none, description := none }

/-- The invalidity rule as the claim words it: a repo is invalid when it
lacks BOTH `url` and `name` (to be compared against the source's
`repoInvalid`, which drops a repo lacking either). -/
def claimInvalid (r : Repo) : Bool := strFalsy r.url && strFalsy r.name

/-- A suggestion row for the "abc" query. -/
def sugAbc : Suggestion := { title := "abc paper", year := none, category := none }

/-- A suggestion row for the "abcd" query. -/
def sugAbcd : Suggestion := { title := "abcd paper", year := none, category := none }

/-- A generic suggestion row. -/
def sugX : Suggestion := { title := "x paper", year := none, category := none }

/-- The stale-response scenario of spec §8: request 0 for "abc" is issued
and still in flight when a newer qualifying input arms and completes
request 1 for "abcd" (whose response arrives and is displayed); then the
stale "abc" response arrives. -/
def staleTrace : List AcEvent :=
  [.input 0 "abc", .tick 300, .input 310 "abcd", .tick 610,
   .response 1 (.ok (some [sugAbcd])), .response 0 (.ok (some [sugAbc]))]

/-- A scenario in which a suggestion request succeeds and shows one row,
then a second request is issued whose response comes back non-2xx. -/
def notOkTrace : List AcEvent :=
  [.input 0 "ab", .tick 300, .response 0 (.ok (some [sugX])),
   .input 400 "abc", .tick 700, .response 1 .notOk]

/-- A shown state with three suggestion rows and no row selected, as in
the keyboard-navigation scenario of spec §8. -/
def shown3 : AcState :=
  { suggestions := [sugAbc, sugAbcd, sugX], selectedIndex := -1, visible := true,
    rendered := [sugAbc, sugAbcd, sugX], timer := none, pending := [],
    nextReq := 1, requestLog := ["abc"] }

/-! ## Helper lemmas -/

theorem data_append (s t : String) : (s ++ t).data = s.data ++ t.data := rfl

theorem joinAll_cons (c : String) (cs : List String) :
    (joinAll (c :: cs)).data = c.data ++ (joinAll cs).data := rfl

/-- Two strings differing on an initial segment of their character data are
distinct. -/
theorem ne_of_take_data_ne (s t : String) (n : Nat)
    (h : s.data.take n ≠ t.data.take n) : s ≠ t :=
  fun he => h (by rw [he])

theorem escChar_no_lt (c : Char) : '<' ∉ escChar c := by
  unfold escChar
  split_ifs with h1 h2 h3 h4
  · decide
  · decide
  · decide
  · decide
  · simp only [List.mem_singleton]
    exact fun h => h3 h.symm

theorem escapeHtml_not_mem_lt (s : String) : '<' ∉ (escapeHtml s).data := by
  intro ha
  rw [escapeHtml] at ha
  simp only [List.mem_flatMap] at ha
  obtain ⟨c, _, hc⟩ := ha
  exact escChar_no_lt c hc

theorem escapeHtml_no_lt (s : String) : ((escapeHtml s).data.contains '<') = false := by
  simpa [List.contains, List.elem_eq_mem, decide_eq_false_iff_not] using
    escapeHtml_not_mem_lt s

theorem repoCard_of_invalid (r : Repo) (h : repoInvalid r = true) : repoCard r = "" := by
  simp [repoCard, h]

theorem repoCard_ne_empty (r : Repo) (h : repoInvalid r = false) : repoCard r ≠ "" := by
  rw [repoCard, if_neg (by simp [h])]
  intro he
  have hd := congrArg String.data he
  simp only [data_append, List.append_assoc] at hd
  exact absurd hd (List.append_ne_nil_of_left_ne_nil (by decide) _)

/-- The validation mapping of `renderRepos`: mapping every repo to its card
and discarding the empty strings is the same as keeping the cards of
exactly the valid repos, in order. -/
theorem filter_map_repoCard (rs : List Repo) :
    (rs.map repoCard).filter (fun h => h ≠ "") =
    (rs.filter (fun r => !repoInvalid r)).map repoCard := by
  induction rs with
  | nil => rfl
  | cons r rest ih =>
      rw [List.map_cons, List.filter_cons, List.filter_cons]
      by_cases h : repoInvalid r = true
      · rw [repoCard_of_invalid r h, if_neg (by simp), if_neg (by simp [h])]
        exact ih
      · rw [Bool.not_eq_true] at h
        rw [if_pos (by simpa using repoCard_ne_empty r h), if_pos (by simp [h]),
          List.map_cons, ih]

theorem joinAll_ne_empty (c : String) (cs : List String) (h : c ≠ "") :
    joinAll (c :: cs) ≠ "" := by
  intro he
  have hd := congrArg String.data he
  rw [joinAll_cons] at hd
  rcases hc : c.data with _ | ⟨a, as⟩
  · exact h (by cases c; simp_all)
  · rw [hc] at hd
    simp at hd

/-- `renderRepos` on a nonempty input with at least one valid entry: one
card per valid repo, in input order. -/
theorem renderRepos_valid (rs : List Repo) (hne : rs ≠ [])
    (hval : rs.filter (fun r => !repoInvalid r) ≠ []) :
    renderRepos (some rs) = joinAll ((rs.filter (fun r => !repoInvalid r)).map repoCard) := by
  rw [renderRepos]
  rw [if_neg (by simpa [List.isEmpty_iff] using hne)]
  rw [filter_map_repoCard]
  rcases hc : rs.filter (fun r => !repoInvalid r) with _ | ⟨r, rest⟩
  · exact absurd hc hval
  · have hr : repoInvalid r = false := by
      have := List.of_mem_filter (List.mem_of_mem_head? (by rw [hc]; rfl))
      simpa using this
    rw [List.map_cons, if_neg (joinAll_ne_empty _ _ (repoCard_ne_empty r hr))]

/-- The error banner is never the loading indicator. -/
theorem errorHtml_ne_loading (m : String) : errorHtml m ≠ loadingHtml := by
  apply ne_of_take_data_ne _ _ 18
  rw [errorHtml]
  simp only [data_append, List.append_assoc]
  rw [List.take_append_of_le_length (by decide)]
  decide

/-- The videos container never ends a search holding the loading
indicator. -/
theorem renderVideos_ne_loading (videos : Option (List Video)) :
    renderVideos videos ≠ loadingHtml := by
  match videos with
  | none => decide
  | some [] => decide
  | some (v :: rest) =>
      rw [renderVideos, if_neg (by simp)]
      apply ne_of_take_data_ne _ _ 6
      rw [List.map_cons, joinAll_cons, videoCard]
      simp only [data_append, List.append_assoc]
      rw [List.take_append_of_le_length (by decide)]
      decide

/-- The repos container never ends a search holding the loading
indicator. -/
theorem renderRepos_ne_loading (repos : Option (List Repo)) :
    renderRepos repos ≠ loadingHtml := by
  match repos with
  | none => decide
  | some [] => decide
  | some (r0 :: rest0) =>
      rw [renderRepos, if_neg (by simp), filter_map_repoCard]
      rcases hc : (r0 :: rest0).filter (fun r => !repoInvalid r) with _ | ⟨r, rest⟩
      · decide
      · have hr : repoInvalid r = false := by
          have := List.of_mem_filter (List.mem_of_mem_head? (by rw [hc]; rfl))
          simpa using this
        rw [List.map_cons, if_neg (joinAll_ne_empty _ _ (repoCard_ne_empty r hr))]
        apply ne_of_take_data_ne _ _ 6
        rw [joinAll_cons, repoCard, if_neg (by simp [hr])]
        simp only [data_append, List.append_assoc]
        rw [List.take_append_of_le_length (by decide)]
        decide

theorem handleInput_requestLog (s : AcState) (t : Nat) (raw : String) :
    (handleInput s t raw).requestLog = s.requestLog := by
  rw [handleInput]
  split <;> rfl

theorem handleInput_timer (s : AcState) (t : Nat) (raw : String) :
    (handleInput s t raw).timer =
      if (jsTrim raw).length < 2 then none else some (t, jsTrim raw) := by
  rw [handleInput]
  split <;> rfl

theorem advanceTo_no_fire (s : AcState) (t : Nat)
    (hg : ∀ ta q, s.timer = some (ta, q) → t < ta + 300) : advanceTo s t = s := by
  rw [advanceTo]
  cases h : s.timer with
  | none => rfl
  | some p =>
      obtain ⟨ta, q⟩ := p
      have := hg ta q h
      show (if ta + 300 ≤ t then fireTimer s else s) = s
      rw [if_neg (by omega)]

/-- The timers of a sequence of input events spaced less than 300 ms apart
never fire while the inputs are being processed: each event cancels its
predecessor's timer first.  After the run, the request log is untouched
and the armed timer (if any) is the one of the last event. -/
theorem debounce_aux (evs : List (Nat × String)) :
    ∀ (t : Nat) (raw : String) (s : AcState),
      timesOk ((t, raw) :: evs) = true →
      (∀ ta q, s.timer = some (ta, q) → t < ta + 300) →
      (acRun s (((t, raw) :: evs).map (fun p => AcEvent.input p.1 p.2))).requestLog
          = s.requestLog
      ∧ (acRun s (((t, raw) :: evs).map (fun p => AcEvent.input p.1 p.2))).timer
          = (if (jsTrim (((t, raw) :: evs).getLast (List.cons_ne_nil _ _)).2).length < 2
             then none
             else some ((((t, raw) :: evs).getLast (List.cons_ne_nil _ _)).1,
               jsTrim (((t, raw) :: evs).getLast (List.cons_ne_nil _ _)).2)) := by
  induction evs with
  | nil =>
      intro t raw s _ hg
      have hstep : acRun s [AcEvent.input t raw] = handleInput s t raw := by
        show handleInput (advanceTo s t) t raw = handleInput s t raw
        rw [advanceTo_no_fire s t hg]
      constructor
      · rw [List.map_cons, List.map_nil, hstep, handleInput_requestLog]
      · rw [List.map_cons, List.map_nil, hstep, handleInput_timer]
        rfl
  | cons e rest ih =>
      intro t raw s htimes hg
      obtain ⟨⟨hle, hlt⟩, htimes'⟩ : (t ≤ e.1 ∧ e.1 < t + 300) ∧ timesOk (e :: rest) = true := by
        rw [timesOk] at htimes
        simpa [Bool.and_eq_true, decide_eq_true_eq] using htimes
      have hstep : acStep s (AcEvent.input t raw) = handleInput s t raw := by
        show handleInput (advanceTo s t) t raw = handleInput s t raw
        rw [advanceTo_no_fire s t hg]
      have hg' : ∀ ta q, (handleInput s t raw).timer = some (ta, q) → e.1 < ta + 300 := by
        intro ta q hq
        rw [handleInput_timer] at hq
        split at hq
        · exact absurd hq (by simp)
        · obtain ⟨rfl, -⟩ : ta = t ∧ q = jsTrim raw := by
            constructor <;> injection hq with h1 <;> simp_all
          omega
      have ihx := ih e.1 e.2 (handleInput s t raw) htimes' hg'
      have hrun : acRun s (((t, raw) :: e :: rest).map (fun p => AcEvent.input p.1 p.2))
          = acRun (handleInput s t raw) ((e :: rest).map (fun p => AcEvent.input p.1 p.2)) := by
        rw [List.map_cons]
        show acRun (acStep s (AcEvent.input t raw)) _ = _
        rw [hstep]
      rw [hrun]
      refine ⟨?_, ?_⟩
      · rw [ihx.1, handleInput_requestLog]
      · rw [ihx.2]
        have : ((t, raw) :: e :: rest).getLast (List.cons_ne_nil _ _)
            = (e :: rest).getLast (List.cons_ne_nil _ _) := List.getLast_cons _
        simp only [this]

/-- The hidden-implies-cleared invariant: whenever the dropdown is not
visible, the stored suggestion list is empty, no row is selected, and the
dropdown's displayed content is empty. -/
def AcInv (s : AcState) : Prop :=
  s.visible = false → (s.suggestions = [] ∧ s.selectedIndex = -1 ∧ s.rendered = [])

theorem acInv_hide (s : AcState) : AcInv (hideAutocomplete s) := by
  intro h
  exact ⟨rfl, rfl, rfl⟩

theorem fireTimer_fields (s : AcState) :
    (fireTimer s).visible = s.visible ∧ (fireTimer s).suggestions = s.suggestions
    ∧ (fireTimer s).selectedIndex = s.selectedIndex ∧ (fireTimer s).rendered = s.rendered := by
  rw [fireTimer]
  cases s.timer with
  | none => exact ⟨rfl, rfl, rfl, rfl⟩
  | some p =>
      obtain ⟨ta, q⟩ := p
      exact ⟨rfl, rfl, rfl, rfl⟩

theorem acInv_fireTimer (s : AcState) (h : AcInv s) : AcInv (fireTimer s) := by
  intro hv
  obtain ⟨h1, h2, h3, h4⟩ := fireTimer_fields s
  rw [h1] at hv
  rw [h2, h3, h4]
  exact h hv

theorem acInv_advanceTo (s : AcState) (t : Nat) (h : AcInv s) : AcInv (advanceTo s t) := by
  rw [advanceTo]
  cases s.timer with
  | none => exact h
  | some p =>
      obtain ⟨ta, q⟩ := p
      show AcInv (if ta + 300 ≤ t then fireTimer s else s)
      split
      · exact acInv_fireTimer s h
      · exact h

theorem acInv_handleInput (s : AcState) (t : Nat) (raw : String) (h : AcInv s) :
    AcInv (handleInput s t raw) := by
  rw [handleInput]
  split
  · exact acInv_hide _
  · intro hv
    exact h hv

theorem acInv_renderSuggestions (s : AcState) : AcInv (renderSuggestions s) := by
  rw [renderSuggestions]
  split
  · exact acInv_hide _
  · intro hv
    exact absurd hv (by simp)

theorem acInv_applyFetch (s : AcState) (r : FetchResult) (h : AcInv s) :
    AcInv (applyFetch s r) := by
  match r with
  | .netError => exact acInv_hide _
  | .notOk => exact h
  | .ok d => exact acInv_renderSuggestions _

theorem acInv_handleKey (s : AcState) (k : Key) (h : AcInv s) : AcInv (handleKey s k) := by
  rw [handleKey.eq_def]
  split
  · rename_i hvis
    split
    · exact h
    · cases k with
      | arrowDown =>
          show AcInv
            { s with selectedIndex := min (s.selectedIndex + 1) ((s.rendered.length : Int) - 1) }
          intro hv
          have hv' : s.visible = false := hv
          rw [hvis] at hv'
          exact Bool.noConfusion hv'
      | arrowUp =>
          show AcInv { s with selectedIndex := max (s.selectedIndex - 1) (-1) }
          intro hv
          have hv' : s.visible = false := hv
          rw [hvis] at hv'
          exact Bool.noConfusion hv'
      | enter =>
          show AcInv (if 0 ≤ s.selectedIndex ∧ s.selectedIndex < (s.rendered.length : Int)
            then hideAutocomplete s else s)
          split
          · exact acInv_hide _
          · exact h
      | escape =>
          show AcInv (hideAutocomplete s)
          exact acInv_hide _
  · exact h

theorem acInv_acStep (s : AcState) (e : AcEvent) (h : AcInv s) : AcInv (acStep s e) := by
  match e with
  | .input t raw => exact acInv_handleInput _ t raw (acInv_advanceTo s t h)
  | .tick t => exact acInv_advanceTo s t h
  | .response id r =>
      rw [acStep]
      split
      · exact acInv_applyFetch _ r (fun hv => h hv)
      · exact h
  | .key k => exact acInv_handleKey s k h

theorem acRun_append (s : AcState) (a b : List AcEvent) :
    acRun s (a ++ b) = acRun (acRun s a) b := List.foldl_append ..

theorem acRun_single (s : AcState) (e : AcEvent) : acRun s [e] = acStep s e := rfl

theorem acStep_tick (s : AcState) (t : Nat) : acStep s (.tick t) = advanceTo s t := rfl

/-- Delivering time `ta + 300` to a state whose timer was armed at `ta`
fires the timer, appending its captured query to the request log. -/
theorem advanceTo_fire_log (s : AcState) (ta : Nat) (q : String)
    (h : s.timer = some (ta, q)) :
    (advanceTo s (ta + 300)).requestLog = s.requestLog ++ [q] := by
  rw [advanceTo.eq_def, h]
  show (if ta + 300 ≤ ta + 300 then fireTimer s else s).requestLog = _
  rw [if_pos (by omega)]
  rw [fireTimer.eq_def, h]

/-! ## The claims -/

/-- C6: `formatNumber` returns `n` as a string when `n < 1000`, the
one-decimal rendering of `n/1000` with suffix "K" when
`1000 ≤ n < 1_000_000`, and the one-decimal rendering of `n/1_000_000`
with suffix "M" otherwise (`formatCountSpec` is that case split written
from the claim's words); in particular `formatNumber 0 = "0"`,
`formatNumber 999 = "999"`, `formatNumber 1000 = "1.0K"` and
`formatNumber 1500000 = "1.5M"`. -/
theorem C6_formatNumber :
    (∀ n : Nat, formatNumber n = formatCountSpec n)
    ∧ formatNumber 0 = "0" ∧ formatNumber 999 = "999"
    ∧ formatNumber 1000 = "1.0K" ∧ formatNumber 1500000 = "1.5M" := by
  refine ⟨fun n => ?_, rfl, rfl, rfl, rfl⟩
  simp only [formatNumber, formatCountSpec]
  split_ifs <;> first | rfl | omega

/-- C5: `escapeHtml` output never contains a `<` character at all — so it
holds no unescaped `<` and cannot open a tag, attribute or script when
inserted as text content — and on the claim's example input it yields
exactly the escaped literal. -/
theorem C5_escapeHtml :
    (∀ s : String, ((escapeHtml s).data.contains '<') = false)
    ∧ escapeHtml "<img src=x onerror=alert(1)>" = "&lt;img src=x onerror=alert(1)&gt;" :=
  ⟨escapeHtml_no_lt, by decide⟩

/-- C3 counterexample: `{name:"B"}` lacks only `url`, so under the claim's
rule ("invalid = lacking both `url` and `name`") it is valid and must be
rendered; the code drops it — with it as the only entry, `renderRepos`
shows the all-invalid empty state instead of one card. -/
theorem C3_counterexample :
    claimInvalid repoB = false
    ∧ renderRepos (some [repoB])
        = "<div class=\"empty-state\">No valid code implementations found</div>" :=
  ⟨rfl, by decide⟩

/-- C3 amended: `renderRepos` drops before display exactly those entries
lacking `url` OR lacking `name` (an entry must have both to be rendered),
rendering one card per remaining repo in input order. -/
theorem C3_repo_filtering (rs : List Repo) (hne : rs ≠ [])
    (hval : rs.filter (fun r => !repoInvalid r) ≠ []) :
    renderRepos (some rs) = joinAll ((rs.filter (fun r => !repoInvalid r)).map repoCard) :=
  renderRepos_valid rs hne hval

/-- C3 witness: the claim's example input `[{url:"a",name:"A"}, {name:"B"}]`
renders exactly the cards of the repos having both fields — only "A". -/
theorem C3_repo_filtering_witness :
    renderRepos (some [repoA, repoB])
      = joinAll (([repoA, repoB].filter (fun r => !repoInvalid r)).map repoCard) :=
  C3_repo_filtering [repoA, repoB] (by decide) (by decide)

/-- C4: `renderRepos` distinguishes the two empty states by message text:
"No code implementations found" when the input is absent or empty, and
"No valid code implementations found" when the input is nonempty but
every entry fails validation; the two messages differ. -/
theorem C4_empty_states (rs : List Repo) (hne : rs ≠ [])
    (hall : ∀ r ∈ rs, repoInvalid r = true) :
    renderRepos none = "<div class=\"empty-state\">No code implementations found</div>"
    ∧ renderRepos (some [])
        = "<div class=\"empty-state\">No code implementations found</div>"
    ∧ renderRepos (some rs)
        = "<div class=\"empty-state\">No valid code implementations found</div>"
    ∧ ("<div class=\"empty-state\">No code implementations found</div>" : String)
        ≠ "<div class=\"empty-state\">No valid code implementations found</div>" := by
  refine ⟨rfl, rfl, ?_, by decide⟩
  rw [renderRepos, if_neg (by simpa [List.isEmpty_iff] using hne), filter_map_repoCard]
  have hfil : rs.filter (fun r => !repoInvalid r) = [] := by
    rw [List.filter_eq_nil_iff]
    intro r hr
    simp [hall r hr]
  rw [hfil]
  rfl

/-- C4 witness: the all-invalid example `[{name:"B"}]` shows the
"No valid code implementations found" empty state. -/
theorem C4_empty_states_witness :
    renderRepos (some [repoB])
      = "<div class=\"empty-state\">No valid code implementations found</div>" :=
  (C4_empty_states [repoB] (by decide) (by decide)).2.2.1

/-- C9: a failed search (network error or non-2xx status) renders one
shared error banner into both regions — its message taken from the error
when nonempty and otherwise the fallback "Something went wrong. Please
try again." (a non-2xx status throws the code's own message) — and no
outcome whatsoever leaves the loading indicator in either region. -/
theorem C9_failure_and_loading (c : Containers) (m : String) (out : SearchOutcome) :
    (performSearch c (.netError m)).videosContainer
        = errorHtml (if m == "" then "Something went wrong. Please try again." else m)
    ∧ (performSearch c (.netError m)).reposContainer
        = (performSearch c (.netError m)).videosContainer
    ∧ (performSearch c .notOk).videosContainer
        = errorHtml "Search request failed. Please try again."
    ∧ (performSearch c .notOk).reposContainer
        = errorHtml "Search request failed. Please try again."
    ∧ (performSearch c out).videosContainer ≠ loadingHtml
    ∧ (performSearch c out).reposContainer ≠ loadingHtml := by
  refine ⟨rfl, rfl, rfl, rfl, ?_, ?_⟩
  · match out with
    | .netError m2 => exact errorHtml_ne_loading _
    | .notOk => exact errorHtml_ne_loading _
    | .ok vs rs =>
        show renderVideos (some (vs.getD [])) ≠ loadingHtml
        exact renderVideos_ne_loading _
  · match out with
    | .netError m2 => exact errorHtml_ne_loading _
    | .notOk => exact errorHtml_ne_loading _
    | .ok vs rs =>
        show renderRepos (some (rs.getD [])) ≠ loadingHtml
        exact renderRepos_ne_loading _

/-- C1 counterexample: running the stale-response scenario, both requests
are issued ("abc" then "abcd"), the "abcd" response is displayed, and then
the late "abc" response overwrites it — the displayed suggestion set ends
as that of "abc", not "abcd". -/
theorem C1_counterexample :
    (acRun initAc staleTrace).requestLog = ["abc", "abcd"]
    ∧ (acRun initAc staleTrace).rendered = [sugAbc]
    ∧ (acRun initAc staleTrace).rendered ≠ [sugAbcd] := by
  decide

/-- C1 amended: the script performs no stale-response suppression — every
2xx suggestion response with a nonempty list overwrites the suggestion
state and the displayed dropdown when it ARRIVES, regardless of any newer
armed or completed request: displayed state reflects the most recently
arrived response, not the most recent request. -/
theorem C1_last_arrival_wins (s : AcState) (l : List Suggestion) (h : l ≠ []) :
    (applyFetch s (.ok (some l))).suggestions = l
    ∧ (applyFetch s (.ok (some l))).rendered = l
    ∧ (applyFetch s (.ok (some l))).visible = true := by
  have hne : l.isEmpty = false := by simpa [List.isEmpty_iff] using h
  have hstep : applyFetch s (.ok (some l)) = renderSuggestions { s with suggestions := l } :=
    rfl
  rw [hstep, renderSuggestions]
  rw [if_neg (by simp [hne])]
  exact ⟨rfl, rfl, rfl⟩

/-- C1 witness: a concrete arriving response is applied unconditionally. -/
theorem C1_last_arrival_wins_witness :
    (applyFetch initAc (.ok (some [sugAbc]))).rendered = [sugAbc] :=
  (C1_last_arrival_wins initAc [sugAbc] (by decide)).2.1

/-- C2 counterexample: after the most recent suggestion request completes
with a non-2xx status, the autocomplete is NOT idle — the dropdown is
still visible and still holds the previously shown suggestions. -/
theorem C2_counterexample :
    (acRun initAc notOkTrace).visible = true
    ∧ (acRun initAc notOkTrace).suggestions = [sugX]
    ∧ (acRun initAc notOkTrace).rendered = [sugX] := by
  decide

/-- C2 amended: on a network error, or on success with an empty (or
missing) suggestion list, the autocomplete transitions to idle — dropdown
hidden, suggestions cleared, selection reset — while a non-2xx HTTP
status is ignored entirely, leaving the state exactly unchanged; no path
writes anything user-visible outside the dropdown. -/
theorem C2_fetch_completion (s : AcState) :
    applyFetch s .netError = hideAutocomplete s
    ∧ (applyFetch s .netError).visible = false
    ∧ (applyFetch s .netError).suggestions = []
    ∧ (applyFetch s .netError).rendered = []
    ∧ (applyFetch s .netError).selectedIndex = -1
    ∧ (applyFetch s (.ok none)).visible = false
    ∧ (applyFetch s (.ok none)).suggestions = []
    ∧ (applyFetch s (.ok (some []))).visible = false
    ∧ (applyFetch s (.ok (some []))).suggestions = []
    ∧ applyFetch s .notOk = s :=
  ⟨rfl, rfl, rfl, rfl, rfl, rfl, rfl, rfl, rfl, rfl⟩

/-- C7: debounce — for a sequence of input events each arriving less than
300 ms after the one before, no timer fires while the inputs are being
typed; once 300 ms pass after the last event (whose trimmed query has
length ≥ 2), exactly one suggestion request has been issued, for the
query captured when the last timer was armed. -/
theorem C7_debounce (evs : List (Nat × String)) (t : Nat) (raw : String)
    (htimes : timesOk ((t, raw) :: evs) = true)
    (hlast : 2 ≤ (jsTrim (((t, raw) :: evs).getLast (List.cons_ne_nil _ _)).2).length) :
    (acRun initAc
      ((((t, raw) :: evs).map (fun p => AcEvent.input p.1 p.2))
        ++ [AcEvent.tick ((((t, raw) :: evs).getLast (List.cons_ne_nil _ _)).1 + 300)])).requestLog
    = [jsTrim (((t, raw) :: evs).getLast (List.cons_ne_nil _ _)).2] := by
  have hg0 : ∀ ta q, initAc.timer = some (ta, q) → t < ta + 300 := by
    intro ta q h
    exact absurd h (by simp [initAc])
  obtain ⟨hlog, htimer⟩ := debounce_aux evs t raw initAc htimes hg0
  rw [if_neg (by omega)] at htimer
  rw [acRun_append, acRun_single, acStep_tick, advanceTo_fire_log _ _ _ htimer, hlog]
  rfl

/-- C7 witness: typing "a", "ab", "abc" at 0/100/200 ms and letting the
debounce delay elapse issues exactly one request, for "abc". -/
theorem C7_debounce_witness :
    (acRun initAc
      [AcEvent.input 0 "a", AcEvent.input 100 "ab", AcEvent.input 200 "abc",
       AcEvent.tick 500]).requestLog = ["abc"] :=
  C7_debounce [(100, "ab"), (200, "abc")] 0 "a" (by decide) (by decide)

/-- C8: while the dropdown is shown with rows, ArrowDown moves the
selection to `min (i+1) (count-1)` and ArrowUp to `max (i-1) (-1)` — a
±1 move clamped to `[-1, count-1]` — and from any in-range selection both
keys keep the selection in `[-1, count-1]` (no wrap-around). -/
theorem C8_keyboard (s : AcState) (hvis : s.visible = true) (hne : s.rendered ≠ []) :
    (handleKey s .arrowDown).selectedIndex
        = min (s.selectedIndex + 1) ((s.rendered.length : Int) - 1)
    ∧ (handleKey s .arrowUp).selectedIndex = max (s.selectedIndex - 1) (-1)
    ∧ (-1 ≤ s.selectedIndex → s.selectedIndex ≤ (s.rendered.length : Int) - 1 →
        -1 ≤ (handleKey s .arrowDown).selectedIndex
        ∧ (handleKey s .arrowDown).selectedIndex ≤ (s.rendered.length : Int) - 1
        ∧ -1 ≤ (handleKey s .arrowUp).selectedIndex
        ∧ (handleKey s .arrowUp).selectedIndex ≤ (s.rendered.length : Int) - 1) := by
  have hempty : s.rendered.isEmpty = false := by simpa [List.isEmpty_iff] using hne
  have hlen : 1 ≤ s.rendered.length := List.length_pos.mpr hne
  have hD : (handleKey s .arrowDown).selectedIndex
      = min (s.selectedIndex + 1) ((s.rendered.length : Int) - 1) := by
    rw [handleKey.eq_def, if_pos hvis, if_neg (by simp [hempty])]
  have hU : (handleKey s .arrowUp).selectedIndex = max (s.selectedIndex - 1) (-1) := by
    rw [handleKey.eq_def, if_pos hvis, if_neg (by simp [hempty])]
  refine ⟨hD, hU, fun h1 h2 => ⟨?_, ?_, ?_, ?_⟩⟩
  · rw [hD, Int.min_def]
    split_ifs <;> omega
  · rw [hD, Int.min_def]
    split_ifs <;> omega
  · rw [hU, Int.max_def]
    split_ifs <;> omega
  · rw [hU, Int.max_def]
    split_ifs <;> omega

/-- C8 witness: with 3 suggestions shown and nothing selected, ArrowDown
selects row 0 and ArrowUp stays at -1 (the spec's scenario endpoints). -/
theorem C8_keyboard_witness :
    (handleKey shown3 .arrowDown).selectedIndex = 0
    ∧ (handleKey shown3 .arrowUp).selectedIndex = -1 :=
  ⟨((C8_keyboard shown3 rfl (by decide)).1).trans (by decide),
   ((C8_keyboard shown3 rfl (by decide)).2.1).trans (by decide)⟩

/-- C10: every autocomplete operation — input handling, timer delivery,
suggestion-fetch completion, keyboard handling — preserves the invariant
that a hidden dropdown has empty suggestions, selection -1 and empty
displayed content; and dismissal (`hideAutocomplete`) always clears the
displayed content and the stored suggestion state together. -/
theorem C10_hidden_invariant :
    (∀ (s : AcState) (e : AcEvent), AcInv s → AcInv (acStep s e))
    ∧ (∀ s : AcState,
        (hideAutocomplete s).visible = false ∧ (hideAutocomplete s).rendered = []
        ∧ (hideAutocomplete s).suggestions = []
        ∧ (hideAutocomplete s).selectedIndex = -1) :=
  ⟨fun s e h => acInv_acStep s e h, fun _ => ⟨rfl, rfl, rfl, rfl⟩⟩

/-- C10 witness: the invariant holds of the initial state and is carried
through a concrete dismissal step. -/
theorem C10_hidden_invariant_witness :
    AcInv (acStep initAc (AcEvent.key Key.escape)) :=
  C10_hidden_invariant.1 initAc (AcEvent.key Key.escape) (fun _ => ⟨rfl, rfl, rfl⟩)

end ResearchExplorer
